import Mathlib

set_option autoImplicit false

/-!
Shallow embedding of `noetry/__main__.py`, a project-local virtual-environment
and dependency manager. The program state is the project directory's relevant
contents: a file store (path to content), the optional virtual environment
(modelling the `.venv` directory together with the external installer's state),
an optional parsed `pyproject.toml`, and the host platform. Side effects
(prints, subprocess invocations, environment creation/removal) are recorded as
an event trace; Python exceptions (FileNotFoundError from `subprocess.run` on a
missing executable, NameError from evaluating an undefined global) are modelled
explicitly.
-/

namespace Noetry

/-- Host platform as the Python runtime exposes it: `sys.platform`
(e.g. "win32", "linux") and `os.name` (e.g. "posix", "nt"). -/
structure Platform where
  sysPlatform : String
  osName : String
deriving DecidableEq

/-- First-match association-list lookup (ordered mapping, as Python dicts and
the file store are). -/
def lookupKey : List (String × String) → String → Option String
  | [], _ => none
  | (q, v) :: rest, k => if q = k then some v else lookupKey rest k

/-- Whether an ordered mapping has an entry for key `k`. -/
def containsKey (l : List (String × String)) (k : String) : Bool :=
  (lookupKey l k).isSome

/-- Overwrite (or create) the entry for key `p` with content `c`. -/
def setFile : List (String × String) → String → String → List (String × String)
  | [], p, c => [(p, c)]
  | (q, d) :: rest, p, c => if q = p then (p, c) :: rest else (q, d) :: setFile rest p c

/-- `os.path.exists` on the file store. -/
def fileExists (fs : List (String × String)) (p : String) : Bool :=
  (lookupKey fs p).isSome

/-- Drop every entry with key `k` (Python `del d[k]` on a dict with unique
keys, and the installed-set effect of `pip uninstall`). -/
def eraseKey (l : List (String × String)) (k : String) : List (String × String) :=
  l.filter (fun e => e.1 ≠ k)

/-- `os.path.join` with POSIX separators. -/
def pathJoin (a b : String) : String := a ++ "/" ++ b

/-- External-installer model: the state of the environment rooted at `.venv`.
`installed` is the ordered installed-package set (name, pinned version);
`freezeBroken` models a `pip freeze` invocation that fails (non-zero exit, no
output); `hasPosixActivate` models whether `bin/activate` exists on disk. -/
structure Venv where
  installed : List (String × String)
  freezeBroken : Bool
  hasPosixActivate : Bool
deriving DecidableEq

/-- The foreign manifest `pyproject.toml`, already parsed: the
`tool.poetry.dependencies` and `tool.poetry.dev-dependencies` tables as
ordered name-to-constraint mappings. -/
structure PyProject where
  dependencies : List (String × String)
  devDependencies : List (String × String)
deriving DecidableEq

/-- The whole program-visible state of one project directory. `resolver` is
the external installer's version pinning (what version `pip install name`
ends up installing). -/
structure PyState where
  files : List (String × String)
  venv : Option Venv
  pyproject : Option PyProject
  platform : Platform
  resolver : String → String

/-- Observable side effects of one operation, in order. -/
inductive Event where
  | print (line : String)
  | spawn (argv : List String)
  | spawnShell (cmd : String)
  | venvCreate (dir : String)
  | rmrf (dir : String)
deriving DecidableEq

/-- Python exceptions the embedded code can raise. -/
inductive PyExc where
  | fileNotFoundError
  | nameError
deriving DecidableEq

/-- Result of running one operation: the events it emitted, the state it left
behind, and the exception it escaped with, if any. -/
structure Res where
  events : List Event
  state : PyState
  exc : Option PyExc

/-- Which events execute an external process (a spawned argv, a shell command
line, or the `rm -rf` subprocess). -/
def spawnsProcess : Event → Bool
  | .print _ => false
  | .spawn _ => true
  | .spawnShell _ => true
  | .venvCreate _ => false
  | .rmrf _ => true

def NOETRY_YML : String := ".noetry.yml"

/-- The message printed by `run_in_venv` and `list_packages` when `.venv` is
absent. -/
def noVenvMsg : String :=
  "Error: No virtual environment found in this project. Please use \x27noetry create\x27."

/-- `yaml.dump({"python_version": "3.9"})`. -/
def defaultConfigText : String := "python_version: \x273.9\x27\n"

/-- `pip freeze` output for an installed set: one `name==version` line per
package. -/
def freezeText (installed : List (String × String)) : String :=
  String.join (installed.map (fun e => e.1 ++ "==" ++ e.2 ++ "\n"))

/-- Exit code and captured standard output of a subprocess. -/
structure ProcResult where
  exitCode : Nat
  stdout : String

/-- External-installer model: the result of invoking `pip freeze`. A broken
enumeration exits non-zero and produces no output. -/
def freezeProc (env : Venv) : ProcResult :=
  if env.freezeBroken then ⟨1, ""⟩ else ⟨0, freezeText env.installed⟩

/-- External-installer model: `pip install name` pins a version for the name
and adds it when absent; an already-installed requirement is left as is. -/
def pipInstall (env : Venv) (package version : String) : Venv :=
  if containsKey env.installed package then env
  else { env with installed := env.installed ++ [(package, version)] }

/-- External-installer model: `pip uninstall -y name` removes the name. -/
def pipUninstall (env : Venv) (package : String) : Venv :=
  { env with installed := eraseKey env.installed package }

/-- Lines 71-72: a pure conditional on `sys.platform`, with no filesystem
access. -/
def get_pip_exe (venv_dir : String) (platform : Platform) : String :=
  if platform.sysPlatform = "win32" then pathJoin (pathJoin venv_dir "Scripts") "pip"
  else pathJoin (pathJoin venv_dir "bin") "pip"

/-- Lines 16-20: `venv.create(venv_dir, with_pip=True)` provisions a fresh
environment. -/
def create_virtualenv (project_dir : String) (s : PyState) : Res :=
  let venv_dir := pathJoin project_dir ".venv"
  ⟨[.venvCreate venv_dir, .print ("Created virtual environment at: " ++ venv_dir)],
   { s with venv := some ⟨[], false, true⟩ }, none⟩

/-- Lines 23-26: `rm -rf` on the environment directory. -/
def delete_virtualenv (project_dir : String) (s : PyState) : Res :=
  let venv_dir := pathJoin project_dir ".venv"
  ⟨[.rmrf venv_dir, .print ("Deleted virtual environment at: " ++ venv_dir)],
   { s with venv := none }, none⟩

/-- Lines 94-106: capture `pip freeze` and overwrite `requirements.txt` with
its standard output, with no check of the exit status. When the environment is
absent the pip executable does not exist and `subprocess.run` raises
FileNotFoundError before anything is written. -/
def update_requirements (project_dir : String) (s : PyState) : Res :=
  let venv_dir := pathJoin project_dir ".venv"
  let pip_exe := get_pip_exe venv_dir s.platform
  match s.venv with
  | none => ⟨[], s, some .fileNotFoundError⟩
  | some env =>
    let result := freezeProc env
    let requirements := result.stdout
    ⟨[.spawn [pip_exe, "freeze"]],
     { s with files := setFile s.files (pathJoin project_dir "requirements.txt") requirements },
     none⟩

/-- Lines 29-37: no existence check; `subprocess.run([pip_exe, ...])` raises
FileNotFoundError when the environment (hence the pip executable) is absent.
On success the installer mutation is followed by a manifest resync. -/
def install_package (project_dir package : String) (s : PyState) : Res :=
  let venv_dir := pathJoin project_dir ".venv"
  let pip_exe := get_pip_exe venv_dir s.platform
  match s.venv with
  | none => ⟨[], s, some .fileNotFoundError⟩
  | some env =>
    let s1 := { s with venv := some (pipInstall env package (s.resolver package)) }
    let r := update_requirements project_dir s1
    match r.exc with
    | some e => ⟨Event.spawn [pip_exe, "install", package] :: r.events, r.state, some e⟩
    | none =>
      ⟨Event.spawn [pip_exe, "install", package] :: r.events
         ++ [.print ("Installed package: " ++ package)],
       r.state, none⟩

/-- Lines 40-48: same shape as `install_package`, with the installer's forced
removal mode. -/
def uninstall_package (project_dir package : String) (s : PyState) : Res :=
  let venv_dir := pathJoin project_dir ".venv"
  let pip_exe := get_pip_exe venv_dir s.platform
  match s.venv with
  | none => ⟨[], s, some .fileNotFoundError⟩
  | some env =>
    let s1 := { s with venv := some (pipUninstall env package) }
    let r := update_requirements project_dir s1
    match r.exc with
    | some e => ⟨Event.spawn [pip_exe, "uninstall", "-y", package] :: r.events, r.state, some e⟩
    | none =>
      ⟨Event.spawn [pip_exe, "uninstall", "-y", package] :: r.events
         ++ [.print ("Uninstalled package: " ++ package)],
       r.state, none⟩

/-- Lines 51-68: require the environment, resolve the activation script by a
filesystem probe (POSIX layout first), then dispatch on `os.name`: POSIX and
Windows build one shell command line; any other platform only reports an
error. -/
def run_in_venv (project_dir : String) (commands : List String) (s : PyState) : Res :=
  let venv_dir := pathJoin project_dir ".venv"
  match s.venv with
  | none => ⟨[.print noVenvMsg], s, none⟩
  | some env =>
    let activate_script :=
      if env.hasPosixActivate then pathJoin (pathJoin venv_dir "bin") "activate"
      else pathJoin (pathJoin venv_dir "Scripts") "activate"
    if s.platform.osName = "posix" then
      ⟨[.spawnShell (". " ++ activate_script ++ " && " ++ String.intercalate " " commands)],
       s, none⟩
    else if s.platform.osName = "nt" then
      ⟨[.spawnShell (activate_script ++ " && " ++ String.intercalate " " commands)], s, none⟩
    else
      ⟨[.print "Error: Unsupported OS."], s, none⟩

/-- Lines 75-91: no-op when the config file exists; otherwise write the
default config and create the environment. -/
def init_project (project_dir : String) (s : PyState) : Res :=
  let config_path := pathJoin project_dir NOETRY_YML
  if fileExists s.files config_path then
    ⟨[.print (NOETRY_YML ++ " already exists.")], s, none⟩
  else
    let s1 := { s with files := setFile s.files config_path defaultConfigText }
    let r := create_virtualenv project_dir s1
    ⟨Event.print ("Initialized " ++ NOETRY_YML ++ " with default Python version 3.9.")
       :: r.events,
     r.state, r.exc⟩

/-- Lines 109-116: require the environment, then surface `pip list`. -/
def list_packages (project_dir : String) (s : PyState) : Res :=
  let venv_dir := pathJoin project_dir ".venv"
  match s.venv with
  | none => ⟨[.print noVenvMsg], s, none⟩
  | some _ =>
    let pip_exe := get_pip_exe venv_dir s.platform
    ⟨[.spawn [pip_exe, "list"]], s, none⟩

/-- Python `\x7b**a, **b\x7d` on ordered mappings: keys of `a` in order, each
with `b`'s value when `b` also has the key, then keys only in `b`, in order. -/
def dictMerge (a b : List (String × String)) : List (String × String) :=
  a.map (fun e => (e.1, (lookupKey b e.1).getD e.2)) ++ b.filter (fun e => !containsKey a e.1)

/-- Lines 130-142: the merged mapping `convert_from_poetry` iterates —
dev-dependencies merged over dependencies, after the `python` entry is deleted
from dependencies. -/
def convertMerged (pp : PyProject) : List (String × String) :=
  dictMerge (eraseKey pp.dependencies "python") pp.devDependencies

/-- Lines 139-146: the `name ++ constraint` lines, newline-joined, written to
`requirements.txt`. -/
def convertRequirementsText (pp : PyProject) : String :=
  String.intercalate "\n" ((convertMerged pp).map (fun e => e.1 ++ e.2))

/-- Lines 119-151: fail on a missing `pyproject.toml`; otherwise write the
converted requirements, then delegate to `init_project`. -/
def convert_from_poetry (project_dir : String) (s : PyState) : Res :=
  match s.pyproject with
  | none => ⟨[.print "Error: pyproject.toml not found in the current directory."], s, none⟩
  | some pp =>
    let s1 := { s with
      files := setFile s.files (pathJoin project_dir "requirements.txt")
        (convertRequirementsText pp) }
    let r := init_project project_dir s1
    match r.exc with
    | some e => ⟨r.events, r.state, some e⟩
    | none => ⟨r.events ++ [.print "Converted Poetry project to Noetry."], r.state, none⟩

def helpText : String :=
  "\nNoetry - A simple virtual environment and dependency manager\n\nCommands:\n    create               - Create a new virtual environment for the project\n    delete               - Delete the virtual environment for the project\n    add <pkg>            - Install a package and add it to requirements.txt\n    remove <pkg>         - Uninstall a package and remove it from requirements.txt\n    set-python <version> - Set the Python version for the virtual environment\n    init                 - Initialize a new .noetry.yml configuration file\n    convert              - Convert a Poetry project to a Noetry project\n    run <cmd>            - Run a command within the virtual environment\n    list                 - List all packages installed in the virtual environment\n\nExample:\n    noetry add requests\n    noetry run python script.py\n    noetry list\n    "

/-- Lines 154-196: the dispatcher. `cwd` is `os.getcwd()`. The `set-python`
branch calls `set_python_version`, a name defined nowhere in the module, so
evaluating it raises NameError before any effect. -/
def main (cwd : String) (argv : List String) (s : PyState) : Res :=
  match argv with
  | [] => ⟨[.print helpText], s, none⟩
  | cmd :: args =>
    let project_dir := cwd
    if cmd = "create" then create_virtualenv project_dir s
    else if cmd = "delete" then delete_virtualenv project_dir s
    else if cmd = "add" then
      match args with
      | pkg :: _ => install_package project_dir pkg s
      | [] => ⟨[.print "Please specify a package to add."], s, none⟩
    else if cmd = "remove" then
      match args with
      | pkg :: _ => uninstall_package project_dir pkg s
      | [] => ⟨[.print "Please specify a package to remove."], s, none⟩
    else if cmd = "set-python" then
      match args with
      | _ :: _ => ⟨[], s, some .nameError⟩
      | [] => ⟨[.print "Please specify a Python version."], s, none⟩
    else if cmd = "init" then init_project project_dir s
    else if cmd = "convert" then convert_from_poetry project_dir s
    else if cmd = "run" then
      match args with
      | [] => ⟨[.print "Please specify a command to run."], s, none⟩
      | _ :: _ => run_in_venv project_dir args s
    else if cmd = "list" then list_packages project_dir s
    else ⟨[.print ("Unknown command: " ++ cmd), .print helpText], s, none⟩

/-! ### Association-list and file-store lemmas -/

theorem lookupKey_setFile_self (fs : List (String × String)) (p c : String) :
    lookupKey (setFile fs p c) p = some c := by
  induction fs with
  | nil => simp [setFile, lookupKey]
  | cons hd tl ih =>
    obtain ⟨q, d⟩ := hd
    by_cases h : q = p
    · simp [setFile, h, lookupKey]
    · simp [setFile, h, lookupKey, ih]

theorem lookupKey_setFile_ne (fs : List (String × String)) (p c q : String) (h : p ≠ q) :
    lookupKey (setFile fs p c) q = lookupKey fs q := by
  induction fs with
  | nil => simp [setFile, lookupKey, h]
  | cons hd tl ih =>
    obtain ⟨a, d⟩ := hd
    by_cases ha : a = p
    · subst ha
      simp [setFile, lookupKey, h]
    · simp [setFile, ha, lookupKey, ih]

theorem fileExists_setFile (fs : List (String × String)) (p c : String) :
    fileExists (setFile fs p c) p = true := by
  simp [fileExists, lookupKey_setFile_self]

theorem pathJoin_ne (a b c : String) (h : b.length ≠ c.length) :
    pathJoin a b ≠ pathJoin a c := by
  intro he
  apply h
  have hl := congrArg String.length he
  simp only [pathJoin, String.length_append] at hl
  omega

theorem lookupKey_append (xs ys : List (String × String)) (k : String) :
    lookupKey (xs ++ ys) k =
      (match lookupKey xs k with
       | some v => some v
       | none => lookupKey ys k) := by
  induction xs with
  | nil => simp [lookupKey]
  | cons hd tl ih =>
    obtain ⟨q, v⟩ := hd
    by_cases h : q = k <;> simp [lookupKey, h, ih]

theorem lookupKey_mapMerge (a b : List (String × String)) (k : String) :
    lookupKey (a.map (fun e => (e.1, (lookupKey b e.1).getD e.2))) k =
      (lookupKey a k).map (fun v => (lookupKey b k).getD v) := by
  induction a with
  | nil => simp [lookupKey]
  | cons hd tl ih =>
    obtain ⟨q, v⟩ := hd
    by_cases h : q = k
    · subst h
      simp [lookupKey]
    · simp [lookupKey, h, ih]

theorem lookupKey_filterNot (a b : List (String × String)) (k : String) :
    lookupKey (b.filter (fun e => !containsKey a e.1)) k =
      if containsKey a k then none else lookupKey b k := by
  induction b with
  | nil => simp [lookupKey]
  | cons hd tl ih =>
    obtain ⟨q, v⟩ := hd
    by_cases h : q = k
    · subst h
      cases hc : containsKey a q <;> simp [hc, lookupKey, ih]
    · cases hc : containsKey a q <;> simp [hc, lookupKey, h, ih]

theorem lookupKey_dictMerge_right (a b : List (String × String)) (k : String)
    (h : containsKey b k = true) :
    lookupKey (dictMerge a b) k = lookupKey b k := by
  obtain ⟨w, hw⟩ : ∃ w, lookupKey b k = some w := by
    simpa [containsKey, Option.isSome_iff_exists] using h
  unfold dictMerge
  rw [lookupKey_append, lookupKey_mapMerge, lookupKey_filterNot]
  cases ha : lookupKey a k <;> simp [containsKey, ha, hw]

theorem lookupKey_dictMerge_left (a b : List (String × String)) (k : String)
    (h : containsKey b k = false) :
    lookupKey (dictMerge a b) k = lookupKey a k := by
  have hw : lookupKey b k = none := by
    cases hb : lookupKey b k
    · rfl
    · simp [containsKey, hb] at h
  unfold dictMerge
  rw [lookupKey_append, lookupKey_mapMerge, lookupKey_filterNot]
  cases ha : lookupKey a k <;> simp [containsKey, ha, hw]

theorem lookupKey_eraseKey_self (l : List (String × String)) (k : String) :
    lookupKey (eraseKey l k) k = none := by
  induction l with
  | nil => simp [eraseKey, lookupKey]
  | cons hd tl ih =>
    obtain ⟨q, v⟩ := hd
    by_cases h : q = k <;> simp [eraseKey, h, lookupKey, ih] <;>
      simpa [eraseKey] using ih

theorem lookupKey_eraseKey_ne (l : List (String × String)) (k q : String) (h : q ≠ k) :
    lookupKey (eraseKey l k) q = lookupKey l q := by
  induction l with
  | nil => simp [eraseKey, lookupKey]
  | cons hd tl ih =>
    obtain ⟨a, v⟩ := hd
    by_cases ha : a = k
    · subst ha
      simpa [eraseKey, lookupKey, Ne.symm h] using ih
    · by_cases haq : a = q
      · subst haq
        simp [eraseKey, lookupKey, h]
      · simpa [eraseKey, lookupKey, ha, haq] using ih

@[simp] theorem pipInstall_freezeBroken (env : Venv) (p v : String) :
    (pipInstall env p v).freezeBroken = env.freezeBroken := by
  unfold pipInstall
  split <;> rfl

@[simp] theorem pipUninstall_freezeBroken (env : Venv) (p : String) :
    (pipUninstall env p).freezeBroken = env.freezeBroken := rfl

@[simp] theorem pipUninstall_installed (env : Venv) (p : String) :
    (pipUninstall env p).installed = eraseKey env.installed p := rfl

/-- After `convert_from_poetry` on a state holding a parsed `pyproject.toml`,
the requirements file holds exactly the converted text (the later
`init_project` delegation writes only the config file, a distinct path). -/
theorem convert_writes_requirements (project_dir : String) (s : PyState) (pp : PyProject)
    (hp : s.pyproject = some pp) :
    lookupKey (convert_from_poetry project_dir s).state.files
        (pathJoin project_dir "requirements.txt") = some (convertRequirementsText pp) := by
  have hne : pathJoin project_dir NOETRY_YML ≠ pathJoin project_dir "requirements.txt" := by
    apply pathJoin_ne
    decide
  by_cases h : fileExists
      (setFile s.files (pathJoin project_dir "requirements.txt") (convertRequirementsText pp))
      (pathJoin project_dir NOETRY_YML) = true
  · simp [convert_from_poetry, hp, init_project, h, lookupKey_setFile_self]
  · have h' : fileExists
        (setFile s.files (pathJoin project_dir "requirements.txt") (convertRequirementsText pp))
        (pathJoin project_dir NOETRY_YML) = false := by
      simpa using h
    simp [convert_from_poetry, hp, init_project, h', create_virtualenv,
      lookupKey_setFile_ne _ _ _ _ hne, lookupKey_setFile_self]

/-- An operation reports a NotFound-kind error: either it prints the
missing-environment message, or it escapes with FileNotFoundError. -/
def reportsNotFound (r : Res) : Prop :=
  Event.print noVenvMsg ∈ r.events ∨ r.exc = some PyExc.fileNotFoundError

/-! ### Claim theorems -/

/-- Claim C1: with no environment present, `list_packages`, `run_in_venv`,
`install_package` and `uninstall_package` each leave the state (in particular
`requirements.txt`) unchanged and report a NotFound-kind error — a printed
missing-environment message for list/run, an escaping FileNotFoundError from
the missing pip executable for install/uninstall. -/
theorem claim_C1 (project_dir pkg : String) (commands : List String) (s : PyState)
    (h : s.venv = none) :
    ((list_packages project_dir s).state = s ∧
      reportsNotFound (list_packages project_dir s)) ∧
    ((run_in_venv project_dir commands s).state = s ∧
      reportsNotFound (run_in_venv project_dir commands s)) ∧
    ((install_package project_dir pkg s).state = s ∧
      reportsNotFound (install_package project_dir pkg s)) ∧
    ((uninstall_package project_dir pkg s).state = s ∧
      reportsNotFound (uninstall_package project_dir pkg s)) := by
  simp [list_packages, run_in_venv, install_package, uninstall_package, reportsNotFound, h]

def stateC1 : PyState :=
  { files := [("proj/requirements.txt", "requests==2.31.0\n")], venv := none,
    pyproject := none, platform := ⟨"linux", "posix"⟩, resolver := fun _ => "1.0.0" }

/-- Concrete instance of C1 on a project with a manifest but no environment. -/
theorem claim_C1_witness :
    ((list_packages "proj" stateC1).state = stateC1 ∧
      reportsNotFound (list_packages "proj" stateC1)) ∧
    ((run_in_venv "proj" ["python", "script.py"] stateC1).state = stateC1 ∧
      reportsNotFound (run_in_venv "proj" ["python", "script.py"] stateC1)) ∧
    ((install_package "proj" "requests" stateC1).state = stateC1 ∧
      reportsNotFound (install_package "proj" "requests" stateC1)) ∧
    ((uninstall_package "proj" "requests" stateC1).state = stateC1 ∧
      reportsNotFound (uninstall_package "proj" "requests" stateC1)) :=
  claim_C1 "proj" "requests" ["python", "script.py"] stateC1 rfl

/-- Claim C2: installing a package and then uninstalling it (both against a
live environment whose freeze enumeration works) leaves the manifest written
by the uninstall's resync equal to the freeze text of an installed set that
has no entry for that package. -/
theorem claim_C2 (project_dir P : String) (s : PyState) (env : Venv)
    (hv : s.venv = some env) (hok : env.freezeBroken = false) :
    lookupKey
        (uninstall_package project_dir P (install_package project_dir P s).state).state.files
        (pathJoin project_dir "requirements.txt") =
      some (freezeText (eraseKey (pipInstall env P (s.resolver P)).installed P)) ∧
    containsKey (eraseKey (pipInstall env P (s.resolver P)).installed P) P = false := by
  constructor
  · simp [install_package, uninstall_package, update_requirements, hv, freezeProc, hok,
      lookupKey_setFile_self]
  · simp [containsKey, lookupKey_eraseKey_self]

def envC2 : Venv := ⟨[("requests", "2.31.0")], false, true⟩

def stateC2 : PyState :=
  { files := [], venv := some envC2, pyproject := none,
    platform := ⟨"linux", "posix"⟩, resolver := fun _ => "1.26.4" }

/-- Concrete instance of C2: add then remove `numpy`. -/
theorem claim_C2_witness :
    lookupKey
        (uninstall_package "proj" "numpy" (install_package "proj" "numpy" stateC2).state).state.files
        (pathJoin "proj" "requirements.txt") =
      some (freezeText (eraseKey (pipInstall envC2 "numpy" (stateC2.resolver "numpy")).installed "numpy")) ∧
    containsKey (eraseKey (pipInstall envC2 "numpy" (stateC2.resolver "numpy")).installed "numpy") "numpy" = false :=
  claim_C2 "proj" "numpy" stateC2 envC2 rfl rfl

/-- Claim C3: `convert_from_poetry` writes the merged requirements text, and
on any key present in the dev-dependencies group the merged mapping carries
the dev group's constraint (dev wins the key collision). -/
theorem claim_C3 (project_dir k : String) (s : PyState) (pp : PyProject)
    (hp : s.pyproject = some pp) (hk : containsKey pp.devDependencies k = true) :
    lookupKey (convert_from_poetry project_dir s).state.files
        (pathJoin project_dir "requirements.txt") = some (convertRequirementsText pp) ∧
    lookupKey (convertMerged pp) k = lookupKey pp.devDependencies k :=
  ⟨convert_writes_requirements project_dir s pp hp,
   lookupKey_dictMerge_right _ _ _ hk⟩

def ppC3 : PyProject := ⟨[("A", "^1.0"), ("B", "^2.0")], [("B", "^3.0"), ("C", "^1.0")]⟩

def stateC3 : PyState :=
  { files := [], venv := none, pyproject := some ppC3,
    platform := ⟨"linux", "posix"⟩, resolver := fun _ => "1.0.0" }

/-- Concrete instance of C3 on the spec's example: B resolves to the dev
group's `^3.0`, not the runtime group's `^2.0`. -/
theorem claim_C3_witness :
    (lookupKey (convert_from_poetry "proj" stateC3).state.files
        (pathJoin "proj" "requirements.txt") = some (convertRequirementsText ppC3) ∧
     lookupKey (convertMerged ppC3) "B" = lookupKey ppC3.devDependencies "B") ∧
    lookupKey (convertMerged ppC3) "B" = some "^3.0" ∧
    convertRequirementsText ppC3 = "A^1.0\nB^3.0\nC^1.0" :=
  ⟨claim_C3 "proj" "B" stateC3 ppC3 rfl rfl, by decide, by decide⟩

/-- Claim C4: `convert_from_poetry` writes the merged requirements text; a
`python` entry can appear in the merged mapping only if the dev-dependencies
group itself carries one (the runtime group's is deleted before the merge);
and every other runtime entry not overridden by the dev group survives with
its own constraint. -/
theorem claim_C4 (project_dir : String) (s : PyState) (pp : PyProject)
    (hp : s.pyproject = some pp) :
    lookupKey (convert_from_poetry project_dir s).state.files
        (pathJoin project_dir "requirements.txt") = some (convertRequirementsText pp) ∧
    (containsKey (convertMerged pp) "python" = true →
      containsKey pp.devDependencies "python" = true) ∧
    (∀ k, k ≠ "python" → containsKey pp.devDependencies k = false →
      lookupKey (convertMerged pp) k = lookupKey pp.dependencies k) := by
  refine ⟨convert_writes_requirements project_dir s pp hp, ?_, ?_⟩
  · intro h
    by_contra hc
    have hc' : containsKey pp.devDependencies "python" = false := by
      simpa using hc
    have hl := lookupKey_dictMerge_left (eraseKey pp.dependencies "python")
      pp.devDependencies "python" hc'
    rw [lookupKey_eraseKey_self] at hl
    simp [convertMerged, containsKey, hl] at h
  · intro k hk hdev
    have hl := lookupKey_dictMerge_left (eraseKey pp.dependencies "python")
      pp.devDependencies k hdev
    rw [lookupKey_eraseKey_ne _ _ _ hk] at hl
    simpa [convertMerged] using hl

def ppC4 : PyProject := ⟨[("python", "^3.9"), ("requests", "^2.0")], []⟩

def stateC4 : PyState :=
  { files := [], venv := none, pyproject := some ppC4,
    platform := ⟨"linux", "posix"⟩, resolver := fun _ => "1.0.0" }

/-- Concrete instance of C4 on the spec's example: the written text is
`requests^2.0`, with no `python` entry in the merged mapping. -/
theorem claim_C4_witness :
    lookupKey (convert_from_poetry "proj" stateC4).state.files
        (pathJoin "proj" "requirements.txt") = some (convertRequirementsText ppC4) ∧
    lookupKey (convertMerged ppC4) "requests" = lookupKey ppC4.dependencies "requests" ∧
    containsKey (convertMerged ppC4) "python" = false ∧
    convertRequirementsText ppC4 = "requests^2.0" :=
  ⟨(claim_C4 "proj" stateC4 ppC4 rfl).1,
   (claim_C4 "proj" stateC4 ppC4 rfl).2.2 "requests" (by decide) (by decide),
   by decide, by decide⟩

/-- Claim C5: `init_project` is a reported no-op when the config file exists,
and after any first call the config exists, so a second call returns the
unchanged state of the first, reports "already exists", and emits no
environment-creation event. -/
theorem claim_C5 (project_dir : String) (s : PyState) :
    (fileExists s.files (pathJoin project_dir NOETRY_YML) = true →
      init_project project_dir s =
        ⟨[Event.print (NOETRY_YML ++ " already exists.")], s, none⟩) ∧
    init_project project_dir (init_project project_dir s).state =
      ⟨[Event.print (NOETRY_YML ++ " already exists.")],
       (init_project project_dir s).state, none⟩ := by
  constructor
  · intro h
    simp [init_project, h]
  · by_cases h : fileExists s.files (pathJoin project_dir NOETRY_YML) = true
    · simp [init_project, h]
    · have h' : fileExists s.files (pathJoin project_dir NOETRY_YML) = false := by
        simpa using h
      simp [init_project, h', create_virtualenv, fileExists_setFile]

def stateC5 : PyState :=
  { files := [("proj/.noetry.yml", "python_version: \x273.8\x27\n")], venv := none,
    pyproject := none, platform := ⟨"linux", "posix"⟩, resolver := fun _ => "1.0.0" }

/-- Concrete instance of C5 on a project whose config already exists: both
calls are reported no-ops. -/
theorem claim_C5_witness :
    init_project "proj" stateC5 =
      ⟨[Event.print (NOETRY_YML ++ " already exists.")], stateC5, none⟩ ∧
    init_project "proj" (init_project "proj" stateC5).state =
      ⟨[Event.print (NOETRY_YML ++ " already exists.")],
       (init_project "proj" stateC5).state, none⟩ :=
  ⟨(claim_C5 "proj" stateC5).1 (by decide), (claim_C5 "proj" stateC5).2⟩

/-- Claim C6: `update_requirements` is idempotent on the manifest — with no
intervening installer mutation, a second call writes byte-identical content. -/
theorem claim_C6 (project_dir : String) (s : PyState) :
    lookupKey (update_requirements project_dir
          (update_requirements project_dir s).state).state.files
        (pathJoin project_dir "requirements.txt") =
      lookupKey (update_requirements project_dir s).state.files
        (pathJoin project_dir "requirements.txt") := by
  cases hv : s.venv with
  | none => simp [update_requirements, hv]
  | some env => simp [update_requirements, hv, lookupKey_setFile_self]

/-- Claim C7: `get_pip_exe` depends only on the environment directory and the
platform's `sys.platform` value — any two program states agreeing on it (their
file stores, environments and everything else arbitrary) yield the same
path. -/
theorem claim_C7 (venv_dir : String) (s1 s2 : PyState)
    (h : s1.platform.sysPlatform = s2.platform.sysPlatform) :
    get_pip_exe venv_dir s1.platform = get_pip_exe venv_dir s2.platform := by
  simp [get_pip_exe, h]

def stateC7a : PyState :=
  { files := [], venv := none, pyproject := none,
    platform := ⟨"linux", "posix"⟩, resolver := fun _ => "1.0.0" }

def stateC7b : PyState :=
  { files := [("proj/requirements.txt", "x==1\n")], venv := some ⟨[("x", "1")], false, true⟩,
    pyproject := none, platform := ⟨"linux", "nt"⟩, resolver := fun _ => "2.0.0" }

/-- Concrete instance of C7: two states with different file stores and
environments but the same `sys.platform` resolve the same pip path. -/
theorem claim_C7_witness :
    get_pip_exe "proj/.venv" stateC7a.platform = get_pip_exe "proj/.venv" stateC7b.platform :=
  claim_C7 "proj/.venv" stateC7a stateC7b rfl

/-- Claim C8: on a platform that is neither POSIX nor Windows, `run_in_venv`
emits no process-executing event, leaves the state unchanged, and (whenever it
reaches the platform dispatch, i.e. the environment exists) its only output is
the unsupported-OS error. -/
theorem claim_C8 (project_dir : String) (commands : List String) (s : PyState)
    (h1 : s.platform.osName ≠ "posix") (h2 : s.platform.osName ≠ "nt") :
    (∀ e ∈ (run_in_venv project_dir commands s).events, spawnsProcess e = false) ∧
    (run_in_venv project_dir commands s).state = s ∧
    (s.venv.isSome = true →
      (run_in_venv project_dir commands s).events = [Event.print "Error: Unsupported OS."]) := by
  cases hv : s.venv with
  | none => simp [run_in_venv, hv, spawnsProcess]
  | some env => simp [run_in_venv, hv, h1, h2, spawnsProcess]

def stateC8 : PyState :=
  { files := [], venv := some ⟨[], false, true⟩, pyproject := none,
    platform := ⟨"java", "java"⟩, resolver := fun _ => "1.0.0" }

/-- Concrete instance of C8 on an unsupported platform with a live
environment. -/
theorem claim_C8_witness :
    spawnsProcess (Event.print "Error: Unsupported OS.") = false ∧
    (run_in_venv "proj" ["pytest"] stateC8).state = stateC8 ∧
    (run_in_venv "proj" ["pytest"] stateC8).events = [Event.print "Error: Unsupported OS."] :=
  ⟨(claim_C8 "proj" ["pytest"] stateC8 (by decide) (by decide)).1 _ (by decide),
   (claim_C8 "proj" ["pytest"] stateC8 (by decide) (by decide)).2.1,
   (claim_C8 "proj" ["pytest"] stateC8 (by decide) (by decide)).2.2 (by decide)⟩

/-- Claim C9: dispatching `set-python` with a version argument evaluates the
undefined `set_python_version` name, so the run escapes with NameError having
emitted no event and left the state — config file included — unchanged. -/
theorem claim_C9 (cwd version : String) (rest : List String) (s : PyState) :
    main cwd ("set-python" :: version :: rest) s = ⟨[], s, some PyExc.nameError⟩ := by
  simp [main]

/-- Claim C10: with an environment present, `update_requirements` overwrites
the manifest with exactly the freeze invocation's captured stdout, with no
regard to its exit code; when the enumeration fails (non-zero exit, empty
output) the manifest is replaced with empty content. -/
theorem claim_C10 (project_dir : String) (s : PyState) (env : Venv)
    (hv : s.venv = some env) :
    lookupKey (update_requirements project_dir s).state.files
        (pathJoin project_dir "requirements.txt") = some (freezeProc env).stdout ∧
    (env.freezeBroken = true →
      (freezeProc env).exitCode ≠ 0 ∧
      lookupKey (update_requirements project_dir s).state.files
          (pathJoin project_dir "requirements.txt") = some "") := by
  constructor
  · simp [update_requirements, hv, lookupKey_setFile_self]
  · intro hb
    simp [update_requirements, hv, freezeProc, hb, lookupKey_setFile_self]

def envC10 : Venv := ⟨[("requests", "2.31.0")], true, true⟩

def stateC10 : PyState :=
  { files := [("proj/requirements.txt", "requests==2.31.0\n")], venv := some envC10,
    pyproject := none, platform := ⟨"linux", "posix"⟩, resolver := fun _ => "1.0.0" }

/-- Concrete instance of C10 on a broken freeze enumeration: the previously
non-empty manifest is replaced with empty content. -/
theorem claim_C10_witness :
    lookupKey (update_requirements "proj" stateC10).state.files
        (pathJoin "proj" "requirements.txt") = some (freezeProc envC10).stdout ∧
    (freezeProc envC10).exitCode ≠ 0 ∧
    lookupKey (update_requirements "proj" stateC10).state.files
        (pathJoin "proj" "requirements.txt") = some "" :=
  ⟨(claim_C10 "proj" stateC10 envC10 rfl).1,
   ((claim_C10 "proj" stateC10 envC10 rfl).2 rfl).1,
   ((claim_C10 "proj" stateC10 envC10 rfl).2 rfl).2⟩

end Noetry
